import Mathlib

/-!
Shallow embedding of the AuditLogger blockchain client
(src/blockchain/audit_logger.py) and the ledger-facing behavior it relies
on.  Pure Python data is mirrored by Lean structures; the side-effecting
methods are mirrored by functions that also return the ordered list of
ledger operations (RPC calls) they perform, so that properties like
"makes zero write attempts" and "nonce fetched fresh per submission"
become statements about the returned trace.
-/

namespace RLAS

/-- A value passed to or returned from a contract function: the client
only ever moves strings and integers across the ABI boundary. -/
inductive Val where
  | str (s : String)
  | int (i : Int)
deriving DecidableEq

/-- A bound contract function call: `self.contract.functions.NAME(args...)`. -/
structure ContractCall where
  name : String
  args : List Val
deriving DecidableEq

/-- Mirror of the Python `NodeStatus(IntEnum)` in audit_logger.py. -/
inductive NodeStatus where
  | Normal
  | Scaling
  | Alert
deriving DecidableEq

/-- `int(status)` on the IntEnum: Normal = 0, Scaling = 1, Alert = 2. -/
def NodeStatus.toInt : NodeStatus → Int
  | .Normal => 0
  | .Scaling => 1
  | .Alert => 2

/-- `NodeStatus(i)` on an arbitrary integer: the IntEnum constructor
returns the member for 0, 1, 2 and raises ValueError otherwise, which we
model as `none`. -/
def nodeStatusOfInt (i : Int) : Option NodeStatus :=
  if i = 0 then some NodeStatus.Normal
  else if i = 1 then some NodeStatus.Scaling
  else if i = 2 then some NodeStatus.Alert
  else none

/-- The transaction dict built by `function.build_transaction({...})` in
`_send_transaction`, together with the call it wraps. -/
structure Txn where
  chainId : Int
  gas : Nat
  gasPrice : Int
  nonce : Nat
  call : ContractCall
deriving DecidableEq

/-- `sign_transaction(txn, self.account.key)`: the payload plus the key
that signed it (signing itself is an external library primitive). -/
structure SignedTxn where
  txn : Txn
  signerKey : String
deriving DecidableEq

/-- One RPC interaction with the ledger, in the order the client performs
them.  `broadcastTx` is the only operation that can mutate chain state. -/
inductive LedgerOp where
  | readAuthorizedLoggers (addr : String)
  | readOwner
  | readTxCount (addr : String)
  | readChainId
  | readGasPrice
  | broadcastTx (stx : SignedTxn)
  | waitReceipt (hash : String)
deriving DecidableEq

/-- Whether the operation is a write attempt against the ledger. -/
def LedgerOp.isWrite : LedgerOp → Bool
  | .broadcastTx _ => true
  | _ => false

/-- Errors raised during `AuditLogger.__init__`: FileNotFoundError for a
missing ABI file, ValueError from `_check_authorization`. -/
inductive ClientError where
  | configError
  | unauthorized
deriving DecidableEq

/-- Python `str.lower()` as used on hex address strings: lowercase each
character (characterwise `Char.toLower`, kernel-computable). -/
def lowerString (s : String) : String := String.mk (s.data.map Char.toLower)

/-- The ledger-side authorization registry as the two read methods the
client queries: `authorizedLoggers(address)` and `owner()`. -/
structure Registry where
  authorizedLoggers : String → Bool
  owner : String

/-- Mirror of `AuditLogger._check_authorization`: query
`authorizedLoggers(self.address)`; if false, query `owner()` and raise
ValueError unless `self.address.lower() == owner.lower()`.  The second
component records the RPC operations performed. -/
def check_authorization (reg : Registry) (address : String) :
    Except ClientError Unit × List LedgerOp :=
  if reg.authorizedLoggers address = true then
    (Except.ok (), [LedgerOp.readAuthorizedLoggers address])
  else if lowerString address = lowerString reg.owner then
    (Except.ok (), [LedgerOp.readAuthorizedLoggers address, LedgerOp.readOwner])
  else
    (Except.error ClientError.unauthorized,
      [LedgerOp.readAuthorizedLoggers address, LedgerOp.readOwner])

/-- Mirror of `AuditLogger.__init__`: load the ABI file (FileNotFoundError
when absent, modelled as `none`), derive the account address, then run the
authorization gate.  No transaction is built or sent during construction. -/
def clientInit (abi : Option String) (reg : Registry) (address : String) :
    Except ClientError Unit × List LedgerOp :=
  match abi with
  | none => (Except.error ClientError.configError, [])
  | some _ => check_authorization reg address

/-- The gateway state the client observes at one submission: the RPC
results of `get_transaction_count`, `chain_id` and `gas_price`. -/
structure GatewayView where
  txCount : Nat
  chainId : Int
  gasPrice : Int
deriving DecidableEq

/-- Outcome of `wait_for_transaction_receipt`: a receipt carrying the
execution status, or the TimeExhausted timeout. -/
inductive ReceiptOutcome where
  | included (status : Nat)
  | timeout
deriving DecidableEq

/-- Errors surfaced by `_send_transaction`: the explicit
`Exception("Transaction failed: ...")` on receipt status other than 1, and
the propagated TimeExhausted when the receipt wait times out. -/
inductive TxError where
  | transactionFailed (hash : String)
  | timeoutExhausted
deriving DecidableEq

/-- The Python default `gas_limit=300000` of `_send_transaction`. -/
def defaultGasLimit : Nat := 300000

/-- `self.web3.eth.account.sign_transaction(txn, self.account.key)`. -/
def signTransaction (txn : Txn) (key : String) : SignedTxn :=
  { txn := txn, signerKey := key }

/-- Mirror of `AuditLogger._send_transaction`: fetch the nonce, then build
the transaction dict (evaluating `chain_id` and `gas_price` fresh), sign
with the account key, broadcast, wait for the receipt, and classify it —
status 1 returns the transaction hash, anything else raises.  The ledger's
responses (`gw`, `txHash`, `outcome`) are inputs; the trace of RPC
operations performed is returned alongside the result. -/
def send_transaction (gw : GatewayView) (address key : String)
    (function : ContractCall) (txHash : String) (outcome : ReceiptOutcome)
    (gas_limit : Nat) : Except TxError String × List LedgerOp :=
  let nonce := gw.txCount
  let txn : Txn :=
    { chainId := gw.chainId, gas := gas_limit, gasPrice := gw.gasPrice,
      nonce := nonce, call := function }
  let stx := signTransaction txn key
  let ops := [LedgerOp.readTxCount address, LedgerOp.readChainId,
              LedgerOp.readGasPrice, LedgerOp.broadcastTx stx,
              LedgerOp.waitReceipt txHash]
  let result : Except TxError String :=
    match outcome with
    | ReceiptOutcome.included s =>
        if s = 1 then Except.ok txHash
        else Except.error (TxError.transactionFailed txHash)
    | ReceiptOutcome.timeout => Except.error TxError.timeoutExhausted
  (result, ops)

/-- The contract call built by `AuditLogger.log_node_metrics`: the five
arguments are forwarded to `logNodeMetrics` unchanged, with the status
encoded by `int(status)`. -/
def logNodeMetricsCall (node_id : String)
    (memory_usage cpu_load allocated_memory : Int) (status : NodeStatus) :
    ContractCall :=
  { name := "logNodeMetrics",
    args := [Val.str node_id, Val.int memory_usage, Val.int cpu_load,
             Val.int allocated_memory, Val.int status.toInt] }

/-- Mirror of `AuditLogger.log_node_metrics`: build the contract call and
hand it to `_send_transaction` with the default gas limit. -/
def log_node_metrics (gw : GatewayView) (address key : String)
    (node_id : String) (memory_usage cpu_load allocated_memory : Int)
    (status : NodeStatus) (txHash : String) (outcome : ReceiptOutcome) :
    Except TxError String × List LedgerOp :=
  send_transaction gw address key
    (logNodeMetricsCall node_id memory_usage cpu_load allocated_memory status)
    txHash outcome defaultGasLimit

/-- The nonce carried by the first broadcast in an operation trace. -/
def tracedBroadcastNonce (ops : List LedgerOp) : Option Nat :=
  (ops.filterMap fun op =>
    match op with
    | LedgerOp.broadcastTx stx => some stx.txn.nonce
    | _ => none).head?

/-- The contract call carried by each broadcast in an operation trace. -/
def tracedBroadcastCalls (ops : List LedgerOp) : List ContractCall :=
  ops.filterMap fun op =>
    match op with
    | LedgerOp.broadcastTx stx => some stx.txn.call
    | _ => none

/-- A run of sequential confirmed submissions by one identity.
`ConfirmedRun c ns c'` relates the identity's confirmed-transaction count
`c` before the run, the nonces `ns` broadcast by the successive
`_send_transaction` calls, and the count `c'` after the run.  The ledger
side is modelled from the spec: the ledger (an external collaborator) is
an append-only state machine whose confirmed-transaction count for an
identity rises by one for the submission just confirmed, plus `ext` for
any external transactions sharing the identity; the client contributes a
fresh `get_transaction_count` fetch at every submission, which is the
`gw.txCount = c` premise. -/
inductive ConfirmedRun : Nat → List Nat → Nat → Prop where
  | nil (c : Nat) : ConfirmedRun c [] c
  | step {c n c' : Nat} {ns : List Nat} (ext : Nat) (gw : GatewayView)
      (address key : String) (call : ContractCall) (hash : String)
      (gl : Nat) (hc : gw.txCount = c)
      (hn : tracedBroadcastNonce
        (send_transaction gw address key call hash
          (ReceiptOutcome.included 1) gl).2 = some n)
      (hrest : ConfirmedRun (c + 1 + ext) ns c') :
      ConfirmedRun c (n :: ns) c'

/-- The dictionary assembled by `get_latest_node_metrics` /
`get_node_metrics_history` out of one raw contract tuple (the derived
`datetime` field, a pure rendering of `timestamp`, is omitted; the
`status` entry holds the enum member whose `.name` the Python stores). -/
structure MetricsRecord where
  nodeId : String
  timestamp : Int
  memoryUsage : Int
  cpuLoad : Int
  allocatedMemory : Int
  status : NodeStatus
  scaleAction : String
deriving DecidableEq

/-- Errors raised while decoding a raw tuple returned by the contract:
IndexError from subscripting a tuple without the seven expected fields
(in particular the empty sentinel tuple), and ValueError from
`NodeStatus(metrics[5])` on an unknown status integer. -/
inductive ReadError where
  | badTuple
  | badStatus
deriving DecidableEq

/-- Decoding of one raw contract tuple, mirroring the dictionary built in
`get_latest_node_metrics`: subscript the seven fields (IndexError when the
tuple is shorter, e.g. empty) and map `metrics[5]` through `NodeStatus`
(ValueError on an unknown integer). -/
def decodeMetrics (t : List Val) : Except ReadError MetricsRecord :=
  match t with
  | [Val.str nid, Val.int ts, Val.int mem, Val.int cpu, Val.int alloc,
     Val.int st, Val.str sa] =>
    match nodeStatusOfInt st with
    | some s => Except.ok ⟨nid, ts, mem, cpu, alloc, s, sa⟩
    | none => Except.error ReadError.badStatus
  | _ => Except.error ReadError.badTuple

/-- The decoding loop of `get_node_metrics_history`: decode each tuple in
order, appending to the result, the first failure propagating as the
raised exception. -/
def decodeMetricsList : List (List Val) → Except ReadError (List MetricsRecord)
  | [] => Except.ok []
  | t :: ts =>
    match decodeMetrics t with
    | Except.ok r =>
      match decodeMetricsList ts with
      | Except.ok rs => Except.ok (r :: rs)
      | Except.error e => Except.error e
    | Except.error e => Except.error e

/-- The raw seven-field tuple under which a record sits in contract
storage (inverse of `decodeMetrics` on well-formed records). -/
def encodeRecord (r : MetricsRecord) : List Val :=
  [Val.str r.nodeId, Val.int r.timestamp, Val.int r.memoryUsage,
   Val.int r.cpuLoad, Val.int r.allocatedMemory, Val.int r.status.toInt,
   Val.str r.scaleAction]

/-- Modelled from the spec: storage of the on-chain AuditLogger contract,
whose Solidity source is not under src/ (§6 fixes its method surface).
Per-node history of raw record tuples, append-only, oldest-first. -/
structure ContractState where
  history : String → List (List Val)

/-- Modelled from the spec: `getLatestNodeMetrics(nodeId)` returns the
newest stored record, or the empty-tuple sentinel when the node has no
records (§4.5: absence is signalled by an empty tuple). -/
def contractGetLatest (st : ContractState) (nid : String) : List Val :=
  ((st.history nid).getLast?).getD []

/-- Modelled from the spec: `getNodeMetricsHistory(nodeId, start, count)`
returns stored records oldest-first from `start`, at most `count`,
clipped to what exists with no error (§4.5). -/
def contractGetHistory (st : ContractState) (nid : String)
    (start count : Nat) : List (List Val) :=
  ((st.history nid).drop start).take count

/-- Modelled from the spec: the state change of a confirmed
`logNodeMetrics` transaction — append a record carrying the submitted
fields, the ledger-assigned timestamp, and an empty scaleAction
(§3, §6); calls to other functions are outside the claims modelled
here. -/
def contractApplyCall (st : ContractState) (ts : Int) (c : ContractCall) :
    ContractState :=
  match c.name, c.args with
  | "logNodeMetrics",
    [Val.str nid, Val.int mem, Val.int cpu, Val.int alloc, Val.int stI] =>
    ⟨fun n =>
      if n = nid then
        st.history n
          ++ [[Val.str nid, Val.int ts, Val.int mem, Val.int cpu,
               Val.int alloc, Val.int stI, Val.str ""]]
      else st.history n⟩
  | _, _ => st

/-- Mirror of `AuditLogger.get_latest_node_metrics`: a pure read — call
`getLatestNodeMetrics(node_id)` and decode the tuple, any decoding
exception propagating to the caller. -/
def get_latest_node_metrics (st : ContractState) (node_id : String) :
    Except ReadError MetricsRecord :=
  decodeMetrics (contractGetLatest st node_id)

/-- Mirror of `AuditLogger.get_node_metrics_history`: a pure read — call
`getNodeMetricsHistory(node_id, start_index, count)` and decode each
returned tuple in order, any decoding exception propagating. -/
def get_node_metrics_history (st : ContractState) (node_id : String)
    (start_index count : Nat) : Except ReadError (List MetricsRecord) :=
  decodeMetricsList (contractGetHistory st node_id start_index count)

theorem send_transaction_nonce (gw : GatewayView) (address key : String)
    (call : ContractCall) (hash : String) (outcome : ReceiptOutcome)
    (gl : Nat) :
    tracedBroadcastNonce
      (send_transaction gw address key call hash outcome gl).2
      = some gw.txCount := rfl

/-- C1: Client construction fails with Unauthorized, making zero write
attempts, exactly when the registry neither marks the address as an
approved logger nor matches it to the owner under case-insensitive
comparison; construction passes the gate when either condition holds. -/
theorem construction_gate (a : String) (reg : Registry) (address : String) :
    (((clientInit (some a) reg address).1
        = Except.error ClientError.unauthorized) ↔
      ¬(reg.authorizedLoggers address = true ∨
        lowerString address = lowerString reg.owner)) ∧
    ((reg.authorizedLoggers address = true ∨
        lowerString address = lowerString reg.owner) →
      (clientInit (some a) reg address).1 = Except.ok ()) ∧
    ((clientInit (some a) reg address).2.all fun op => !op.isWrite) = true := by
  unfold clientInit check_authorization
  by_cases h1 : reg.authorizedLoggers address = true
  · simp [h1, LedgerOp.isWrite]
  · by_cases h2 : lowerString address = lowerString reg.owner
    · simp [h1, h2, LedgerOp.isWrite]
    · simp [h1, h2, LedgerOp.isWrite]

/-- C1 witness: a concrete address that is neither an approved logger nor
the owner is rejected at construction. -/
theorem construction_gate_witness :
    (clientInit (some "abi")
        { authorizedLoggers := fun _ => false, owner := "0xOwner" }
        "0xUser").1 = Except.error ClientError.unauthorized := by
  exact (construction_gate "abi"
      { authorizedLoggers := fun _ => false, owner := "0xOwner" }
      "0xUser").1.mpr (by decide)

/-- C2: along any run of sequential confirmed submissions, the broadcast
nonces are strictly increasing (no nonce is ever reused) and every nonce
exceeds every nonce confirmed before the run began. -/
theorem nonce_monotone {c c' : Nat} {ns : List Nat}
    (h : ConfirmedRun c ns c') :
    ns.Pairwise (· < ·) ∧ ∀ n ∈ ns, ∀ m, m < c → m < n := by
  induction h with
  | nil c => exact ⟨List.Pairwise.nil, by simp⟩
  | step ext gw address key call hash gl hc hn hrest ih =>
    rename_i c n c' ns
    have hn' : n = c := by
      have := send_transaction_nonce gw address key call hash
        (ReceiptOutcome.included 1) gl
      rw [this] at hn
      have := Option.some.inj hn
      omega
    subst hn'
    subst hc
    constructor
    · refine List.Pairwise.cons ?_ ih.1
      intro k hk
      exact ih.2 k hk gw.txCount (by omega)
    · intro x hx m hm
      rcases List.mem_cons.mp hx with hx | hx
      · omega
      · exact ih.2 x hx m (by omega)

/-- C3: one `_send_transaction` call performs exactly the read of the
transaction count, chain id and gas price from the gateway (fresh, in that
order), then broadcasts the transaction assembled from those fresh values
with the given gas limit, the call's arguments and the identity's
signature, then waits for the receipt; the default gas limit is 300000;
a receipt of status 1 returns the transaction hash and a receipt of
status 0 raises the transaction-failed error. -/
theorem submit_algorithm (gw : GatewayView) (address key : String)
    (function : ContractCall) (hash : String) (outcome : ReceiptOutcome)
    (gl : Nat) :
    (send_transaction gw address key function hash outcome gl).2
      = [LedgerOp.readTxCount address, LedgerOp.readChainId,
         LedgerOp.readGasPrice,
         LedgerOp.broadcastTx
           ⟨{ chainId := gw.chainId, gas := gl, gasPrice := gw.gasPrice,
              nonce := gw.txCount, call := function }, key⟩,
         LedgerOp.waitReceipt hash] ∧
    defaultGasLimit = 300000 ∧
    (outcome = ReceiptOutcome.included 1 →
      (send_transaction gw address key function hash outcome gl).1
        = Except.ok hash) ∧
    (outcome = ReceiptOutcome.included 0 →
      (send_transaction gw address key function hash outcome gl).1
        = Except.error (TxError.transactionFailed hash)) := by
  refine ⟨rfl, rfl, ?_, ?_⟩ <;> rintro rfl <;> rfl

/-- C3 witness: the submission pipeline evaluated at a concrete gateway
view, call and successful receipt. -/
theorem submit_algorithm_witness :
    (send_transaction ⟨7, 1337, 20⟩ "0xA" "key" ⟨"logNodeMetrics", []⟩
        "0xh" (ReceiptOutcome.included 1) 300000).2
      = [LedgerOp.readTxCount "0xA", LedgerOp.readChainId,
         LedgerOp.readGasPrice,
         LedgerOp.broadcastTx ⟨⟨1337, 300000, 20, 7, ⟨"logNodeMetrics", []⟩⟩, "key"⟩,
         LedgerOp.waitReceipt "0xh"] ∧
    (send_transaction ⟨7, 1337, 20⟩ "0xA" "key" ⟨"logNodeMetrics", []⟩
        "0xh" (ReceiptOutcome.included 1) 300000).1 = Except.ok "0xh" := by
  have h := submit_algorithm ⟨7, 1337, 20⟩ "0xA" "key"
    ⟨"logNodeMetrics", []⟩ "0xh" (ReceiptOutcome.included 1) 300000
  exact ⟨h.1, h.2.2.1 rfl⟩

/-- C7: when the receipt wait times out, the submission reports the
propagated timeout error — distinct from both success and the
transaction-failed classification — and the only write in the whole
submission trace is the original broadcast: the reporting itself performs
no further ledger mutation. -/
theorem submit_receipt_timeout (gw : GatewayView) (address key : String)
    (function : ContractCall) (hash : String) (gl : Nat) :
    (send_transaction gw address key function hash
        ReceiptOutcome.timeout gl).1 = Except.error TxError.timeoutExhausted ∧
    (send_transaction gw address key function hash
        ReceiptOutcome.timeout gl).1 ≠ Except.ok hash ∧
    (send_transaction gw address key function hash
        ReceiptOutcome.timeout gl).1
      ≠ Except.error (TxError.transactionFailed hash) ∧
    ((send_transaction gw address key function hash
        ReceiptOutcome.timeout gl).2.filter fun op => op.isWrite)
      = [LedgerOp.broadcastTx
          ⟨{ chainId := gw.chainId, gas := gl, gasPrice := gw.gasPrice,
             nonce := gw.txCount, call := function }, key⟩] := by
  refine ⟨rfl, by simp [send_transaction], by simp [send_transaction], rfl⟩

/-- C7 witness: a concrete timed-out submission reports the timeout
error and its trace carries exactly one write. -/
theorem submit_receipt_timeout_witness :
    (send_transaction ⟨7, 1337, 20⟩ "0xA" "key" ⟨"logNodeMetrics", []⟩
        "0xh" ReceiptOutcome.timeout 300000).1
      = Except.error TxError.timeoutExhausted ∧
    ((send_transaction ⟨7, 1337, 20⟩ "0xA" "key" ⟨"logNodeMetrics", []⟩
        "0xh" ReceiptOutcome.timeout 300000).2.filter fun op => op.isWrite)
      = [LedgerOp.broadcastTx ⟨⟨1337, 300000, 20, 7, ⟨"logNodeMetrics", []⟩⟩, "key"⟩] := by
  have h := submit_receipt_timeout ⟨7, 1337, 20⟩ "0xA" "key"
    ⟨"logNodeMetrics", []⟩ "0xh" 300000
  exact ⟨h.1, h.2.2.2⟩

/-- C10: `log_node_metrics` performs no client-side range validation: for
every integer cpu_load (out-of-range values included) and every memory
figure, the submission broadcasts exactly one transaction, whose call is
`logNodeMetrics` with the arguments passed through unchanged. -/
theorem log_node_metrics_no_validation (gw : GatewayView)
    (address key node_id : String)
    (memory_usage cpu_load allocated_memory : Int) (status : NodeStatus)
    (txHash : String) (outcome : ReceiptOutcome) :
    tracedBroadcastCalls
      (log_node_metrics gw address key node_id memory_usage cpu_load
        allocated_memory status txHash outcome).2
      = [{ name := "logNodeMetrics",
           args := [Val.str node_id, Val.int memory_usage, Val.int cpu_load,
                    Val.int allocated_memory, Val.int status.toInt] }] := rfl

/-- C2 witness: a concrete two-submission confirmed run uses strictly
increasing nonces. -/
theorem nonce_monotone_witness : ([0, 1] : List Nat).Pairwise (· < ·) := by
  have hrun : ConfirmedRun 0 [0, 1] 2 :=
    ConfirmedRun.step 0 ⟨0, 1, 1⟩ "0xA" "key" ⟨"logNodeMetrics", []⟩
      "0xh1" 300000 rfl rfl
      (ConfirmedRun.step 0 ⟨1, 1, 1⟩ "0xA" "key" ⟨"logNodeMetrics", []⟩
        "0xh2" 300000 rfl rfl (ConfirmedRun.nil 2))
  exact (nonce_monotone hrun).1

theorem nodeStatusOfInt_toInt (s : NodeStatus) :
    nodeStatusOfInt s.toInt = some s := by
  cases s <;> rfl

theorem nodeStatusOfInt_eq_none (i : Int) (h0 : i ≠ 0) (h1 : i ≠ 1)
    (h2 : i ≠ 2) : nodeStatusOfInt i = none := by
  simp [nodeStatusOfInt, h0, h1, h2]

theorem decode_encode (r : MetricsRecord) :
    decodeMetrics (encodeRecord r) = Except.ok r := by
  obtain ⟨nid, ts, mem, cpu, alloc, s, sa⟩ := r
  cases s <;> rfl

theorem decodeList_map_encode (l : List MetricsRecord) :
    decodeMetricsList (l.map encodeRecord) = Except.ok l := by
  induction l with
  | nil => rfl
  | cons r rs ih => simp [decodeMetricsList, decode_encode, ih]

/-- C4: submitting `logNodeMetrics` with in-range metrics (cpu load in
[0, 100]) and then reading `getLatest` for the same node returns a record
whose fields equal the submitted values exactly (with the ledger's
timestamp and an empty scaleAction). -/
theorem log_then_get_latest_round_trip (st : ContractState) (ts : Int)
    (nid : String) (mem cpu alloc : Int) (status : NodeStatus)
    (h0 : 0 ≤ cpu) (h100 : cpu ≤ 100) :
    get_latest_node_metrics
      (contractApplyCall st ts (logNodeMetricsCall nid mem cpu alloc status))
      nid
      = Except.ok ⟨nid, ts, mem, cpu, alloc, status, ""⟩ := by
  have hist :
      (contractApplyCall st ts
        (logNodeMetricsCall nid mem cpu alloc status)).history nid
      = st.history nid
        ++ [[Val.str nid, Val.int ts, Val.int mem, Val.int cpu,
             Val.int alloc, Val.int status.toInt, Val.str ""]] := by
    simp [contractApplyCall, logNodeMetricsCall]
  unfold get_latest_node_metrics contractGetLatest
  rw [hist, List.getLast?_concat]
  simp [decodeMetrics, nodeStatusOfInt_toInt]

/-- C4 witness: a concrete in-range submission round-trips through
`getLatest` unchanged. -/
theorem log_then_get_latest_round_trip_witness :
    (0 : Int) ≤ 75 ∧ (75 : Int) ≤ 100 ∧
    get_latest_node_metrics
      (contractApplyCall ⟨fun _ => []⟩ 1700000000
        (logNodeMetricsCall "web-node-1" 1024 75 2048 NodeStatus.Normal))
      "web-node-1"
      = Except.ok ⟨"web-node-1", 1700000000, 1024, 75, 2048,
                   NodeStatus.Normal, ""⟩ :=
  ⟨by decide, by decide,
   log_then_get_latest_round_trip ⟨fun _ => []⟩ 1700000000 "web-node-1"
     1024 75 2048 NodeStatus.Normal (by decide) (by decide)⟩

/-- C5: `getLatest` on a node for which the ledger holds no record — so
the contract answers with the empty-tuple sentinel — fails with the
read-miss error instead of returning a record. -/
theorem get_latest_empty_fails (st : ContractState) (nid : String)
    (h : st.history nid = []) :
    get_latest_node_metrics st nid = Except.error ReadError.badTuple := by
  unfold get_latest_node_metrics contractGetLatest
  rw [h]
  rfl

/-- C5 witness: a fresh ledger with no record for the queried node makes
`getLatest` fail. -/
theorem get_latest_empty_fails_witness :
    (ContractState.mk fun _ => []).history "web-node-1" = ([] : List (List Val)) ∧
    get_latest_node_metrics ⟨fun _ => []⟩ "web-node-1"
      = Except.error ReadError.badTuple :=
  ⟨rfl, get_latest_empty_fails ⟨fun _ => []⟩ "web-node-1" rfl⟩

/-- C6: on a node whose stored history is the encoding of the record list
`recs`, `getHistory` returns, with no error, exactly the slice of `recs`
from `start_index` of at most `count` records, in the ledger's oldest-first
storage order — so a count exceeding the available records returns only
what exists. -/
theorem get_history_slice (recs : List MetricsRecord) (st : ContractState)
    (nid : String) (start_index count : Nat)
    (h : st.history nid = recs.map encodeRecord) :
    get_node_metrics_history st nid start_index count
      = Except.ok ((recs.drop start_index).take count) := by
  unfold get_node_metrics_history contractGetHistory
  rw [h]
  have hslice : ((recs.map encodeRecord).drop start_index).take count
      = ((recs.drop start_index).take count).map encodeRecord := by
    simp [List.map_take, List.map_drop]
  rw [hslice, decodeList_map_encode]

/-- C6 witness: `getHistory(nodeId, 0, 10)` on a node holding exactly 3
records returns exactly those 3 records, oldest-first, with no error. -/
theorem get_history_slice_witness :
    get_node_metrics_history
      ⟨fun _ =>
        [⟨"n1", 10, 512, 35, 1024, NodeStatus.Normal, ""⟩,
         ⟨"n1", 20, 600, 55, 1024, NodeStatus.Scaling, "scale_up"⟩,
         ⟨"n1", 30, 700, 90, 2048, NodeStatus.Alert, ""⟩].map encodeRecord⟩
      "n1" 0 10
      = Except.ok
          [⟨"n1", 10, 512, 35, 1024, NodeStatus.Normal, ""⟩,
           ⟨"n1", 20, 600, 55, 1024, NodeStatus.Scaling, "scale_up"⟩,
           ⟨"n1", 30, 700, 90, 2048, NodeStatus.Alert, ""⟩] := by
  have h := get_history_slice
    [⟨"n1", 10, 512, 35, 1024, NodeStatus.Normal, ""⟩,
     ⟨"n1", 20, 600, 55, 1024, NodeStatus.Scaling, "scale_up"⟩,
     ⟨"n1", 30, 700, 90, 2048, NodeStatus.Alert, ""⟩]
    ⟨fun _ =>
      [⟨"n1", 10, 512, 35, 1024, NodeStatus.Normal, ""⟩,
       ⟨"n1", 20, 600, 55, 1024, NodeStatus.Scaling, "scale_up"⟩,
       ⟨"n1", 30, 700, 90, 2048, NodeStatus.Alert, ""⟩].map encodeRecord⟩
    "n1" 0 10 rfl
  simpa using h

/-- C8: the status enum round-trips through the contract integer encoding
0 = Normal, 1 = Scaling, 2 = Alert: decoding the encoding of each of the
three members yields that member back. -/
theorem status_round_trip :
    (∀ s : NodeStatus, nodeStatusOfInt s.toInt = some s) ∧
    NodeStatus.toInt NodeStatus.Normal = 0 ∧
    NodeStatus.toInt NodeStatus.Scaling = 1 ∧
    NodeStatus.toInt NodeStatus.Alert = 2 := by
  refine ⟨fun s => ?_, rfl, rfl, rfl⟩
  cases s <;> rfl

/-- C9: a status integer outside 0, 1, 2 coming back from the ledger is
rejected: both `getLatest` and `getHistory` raise the decode error rather
than defaulting to some status value. -/
theorem bad_status_rejected (st : ContractState) (nid : String)
    (ts mem cpu alloc badSt : Int) (sa : String)
    (h : st.history nid
      = [[Val.str nid, Val.int ts, Val.int mem, Val.int cpu,
          Val.int alloc, Val.int badSt, Val.str sa]])
    (h0 : badSt ≠ 0) (h1 : badSt ≠ 1) (h2 : badSt ≠ 2) :
    get_latest_node_metrics st nid = Except.error ReadError.badStatus ∧
    get_node_metrics_history st nid 0 10
      = Except.error ReadError.badStatus := by
  have hdec : decodeMetrics
      [Val.str nid, Val.int ts, Val.int mem, Val.int cpu, Val.int alloc,
       Val.int badSt, Val.str sa] = Except.error ReadError.badStatus := by
    simp [decodeMetrics, nodeStatusOfInt_eq_none badSt h0 h1 h2]
  constructor
  · unfold get_latest_node_metrics contractGetLatest
    rw [h]
    simpa using hdec
  · unfold get_node_metrics_history contractGetHistory
    rw [h]
    simp [decodeMetricsList, hdec]

/-- C9 witness: the ledger answering with status integer 3 makes both
readers fail with the decode error. -/
theorem bad_status_rejected_witness :
    get_latest_node_metrics
      ⟨fun _ => [[Val.str "n1", Val.int 10, Val.int 512, Val.int 35,
                  Val.int 1024, Val.int 3, Val.str ""]]⟩ "n1"
      = Except.error ReadError.badStatus ∧
    get_node_metrics_history
      ⟨fun _ => [[Val.str "n1", Val.int 10, Val.int 512, Val.int 35,
                  Val.int 1024, Val.int 3, Val.str ""]]⟩ "n1" 0 10
      = Except.error ReadError.badStatus :=
  bad_status_rejected
    ⟨fun _ => [[Val.str "n1", Val.int 10, Val.int 512, Val.int 35,
                Val.int 1024, Val.int 3, Val.str ""]]⟩
    "n1" 10 512 35 1024 3 "" rfl (by decide) (by decide) (by decide)

end RLAS
